import Mathlib

/-!
Shallow embedding of `src/webui/program_routes.py` from the
haruka-aleo-explorer repository, together with proofs about the source
submission / verification flow, import handling, pagination and query
parameter parsing of those routes.

Conventions of the embedding:
* Python `bytes` values (on-chain program bytecode) are `List Nat`.
* Python strings are Lean `String`s.
* Form values (which in Starlette are `str | UploadFile`) are the
  inductive `FormValue`.
* The external Rust compiler `aleo_explorer_rust.compile_program` is a
  parameter of type `CompileFn`; a `RuntimeError` raised by it is the
  `Except.error` case carrying the message `str(e)`.
* Database reads (`db.get_program`, `db.get_program_leo_source_code`,
  `db.get_program_feature_hash`, ...) are fields of `Database`; the
  route functions thread the database state explicitly and return the
  possibly-updated database together with the HTTP outcome.
* Template rendering, cache headers and `out_of_sync_check` are outside
  the embedded core; the context dictionaries built by the routes are
  captured as structures holding the fields the routes compute.
-/

namespace AleoExplorer

/-- On-chain program bytecode, an opaque byte-exact value
(`db.get_program` returns Python `bytes`). -/
abbrev Bytecode := List Nat

/-- An Aleo program id as in `aleo_types`: a `name` part and a `network`
part, printed `name.network` (for example `credits.aleo`). -/
structure AleoProgramId where
  name : String
  network : String
deriving DecidableEq, Repr

/-- `str(program_id)` for an `AleoProgramId`. -/
def AleoProgramId.strOf (p : AleoProgramId) : String :=
  p.name ++ "." ++ p.network

/-- The part of an `aleo_types.Program` object this module reads after
`Program.load`: its declared imports, in declaration order
(`program.imports`, each with a `program_id`). -/
structure AProgram where
  imports : List AleoProgramId
deriving DecidableEq, Repr

/-- A Starlette form value: either a plain string or an uploaded file. -/
inductive FormValue where
  | str (s : String)
  | file
deriving DecidableEq, Repr

/-- Parse a run of decimal digit characters into a number; `none` when a
non-digit appears. Helper for `pythonInt`. -/
def digitsVal : List Char → Nat → Option Nat
  | [], acc => some acc
  | c :: cs, acc =>
    if c.isDigit then digitsVal cs (acc * 10 + (c.toNat - 48)) else none

/-- Drop leading whitespace characters. Helper for `pyStrip`. -/
def dropLeadingWs : List Char → List Char
  | [] => []
  | c :: cs => if c.isWhitespace then dropLeadingWs cs else c :: cs

/-- Python `str.strip()`: remove leading and trailing whitespace. -/
def pyStrip (l : List Char) : List Char :=
  ((dropLeadingWs l).reverse |> dropLeadingWs).reverse

/-- Embedding of CPython `int(s)` applied to a string for the forms the
routes encounter: optional surrounding whitespace, an optional sign, and
a nonempty run of decimal digits. Anything else raises `ValueError`,
modelled as `none`. -/
def pythonInt (s : String) : Option Int :=
  match pyStrip s.toList with
  | '-' :: cs =>
    if cs = [] then none else (digitsVal cs 0).map (fun n => -(n : Int))
  | '+' :: cs =>
    if cs = [] then none else (digitsVal cs 0).map (fun n => (n : Int))
  | cs =>
    if cs = [] then none else (digitsVal cs 0).map (fun n => (n : Int))

/-- The database state and read interface used by these routes.
Reads that other parts of the repository implement are carried as
function-valued fields so that each route is a pure function of the
`Database` value. -/
structure Database where
  /-- `db.get_program(program_id)`: on-chain bytecode, if any. -/
  programs : String → Option Bytecode
  /-- `db.get_program_leo_source_code(program_id)`: the committed
  verified source record, if any. -/
  leoSources : String → Option String
  /-- Modelled from the spec: `aleo_types.Program.load` (bytecode
  parsing, not under `src/`) is the Chain Index Read returning the
  program with its declared import ids in declaration order. -/
  loadProgram : Bytecode → AProgram
  /-- `db.get_program_feature_hash(program_id)`: the structural feature
  hash, if the program is indexed. -/
  featureHash : String → Option Nat
  /-- Modelled from the spec: the Similarity Index inverted index
  `featureHash → ordered sequence of ProgramIds` (the `db` module is not
  under `src/`); `count` and `page` below are derived from it. -/
  similarGroups : Nat → List String
  /-- `db.get_program_count(no_helloworld=...)`: total programs under
  the optional hello-world filter. -/
  programCount : Bool → Nat
  /-- `db.get_programs(start, end, no_helloworld=...)`: a page of the
  program listing. -/
  getPrograms : Int → Int → Bool → List String
  /-- `db.get_builtin_programs()`. -/
  builtinPrograms : List String

/-- Modelled from the spec: `db.get_program_similar_count(program_id)`
(the `db` module is not under `src/`), as `count(featureHashOf p)` over
the Similarity Index; `0` when the program has no feature hash. -/
def Database.similarCount (db : Database) (pid : String) : Nat :=
  match db.featureHash pid with
  | some h => (db.similarGroups h).length
  | none => 0

/-- Modelled from the spec: `db.get_programs_with_feature_hash(h, start,
end)` (the `db` module is not under `src/`), the stable ordered slice
`page(h, start, end - start)` of the similarity group. -/
def Database.pageWithFeatureHash (db : Database) (h : Nat) (s e : Int) :
    List String :=
  ((db.similarGroups h).drop s.toNat).take (e - s).toNat

/-- Modelled from the spec: `db.store_program_leo_source_code` (the `db`
module is not under `src/`) is the Source Commit Store `tryCommit`: it
creates the source record only when none exists yet, and never
overwrites or deletes an existing record. -/
def Database.storeLeoSource (db : Database) (pid source : String) :
    Database :=
  match db.leoSources pid with
  | some _ => db
  | none =>
    { db with
      leoSources := fun p => if p = pid then some source else db.leoSources p }

/-- Context computed by `programs_route` (the fields of `ctx` the route
itself determines; `sync_info` comes from an external service and is
outside the embedding). -/
structure ProgramsCtx where
  programs : List String
  page : Int
  totalPages : Nat
  noHelloworld : Bool
deriving DecidableEq, Repr

/-- Outcome of `programs_route`: an `HTTPException` or a rendered page. -/
inductive ProgramsResult where
  | httpError (status : Nat) (detail : String)
  | page (ctx : ProgramsCtx)
deriving DecidableEq, Repr

/-- Lines 29-33 of `program_routes.py`: `no_helloworld =
request.query_params.get("no_helloworld", False)` followed by
`no_helloworld = bool(int(no_helloworld))` under a bare `except` that
resets it to `False`. When the parameter is absent the default `False`
goes through `int(False) = 0`, so the flag is off; when `int` raises,
the `except` arm sets the flag off; otherwise the flag is the
truthiness of the parsed integer. -/
def no_helloworld_of (q : Option String) : Bool :=
  match q with
  | none => false
  | some s =>
    match pythonInt s with
    | some n => n != 0
    | none => false

/-- Lines 21-28 (and 131-138) of `program_routes.py`: the `p` query
parameter defaults to `1` and is otherwise parsed with `int`; a parse
failure becomes `none` (the route raises 400). -/
def page_param_of (q : Option String) : Option Int :=
  match q with
  | none => some 1
  | some s => pythonInt s

/-- Lines 18-50 of `program_routes.py`: the program listing route. -/
def programs_route (db : Database) (pParam noHwParam : Option String) :
    ProgramsResult :=
  match page_param_of pParam with
  | none => .httpError 400 "Invalid page"
  | some page =>
    if page < 1 ∨
        ((db.programCount (no_helloworld_of noHwParam) / 50 + 1 : Nat) : Int)
          < page then
      .httpError 400 "Invalid page"
    else
      .page { programs := db.getPrograms (50 * (page - 1)) (50 * (page - 1) + 50)
                            (no_helloworld_of noHwParam) ++ db.builtinPrograms,
              page := page,
              totalPages := db.programCount (no_helloworld_of noHwParam) / 50 + 1,
              noHelloworld := no_helloworld_of noHwParam }

/-- Context computed by `similar_programs_route`. -/
structure SimilarCtx where
  programId : String
  programs : List String
  page : Int
  totalPages : Nat
deriving DecidableEq, Repr

/-- Outcome of `similar_programs_route`. -/
inductive SimilarResult where
  | httpError (status : Nat) (detail : String)
  | page (ctx : SimilarCtx)
deriving DecidableEq, Repr

/-- Lines 128-160 of `program_routes.py`: the similar-programs listing
for one program, paginated in pages of 50. -/
def similar_programs_route (db : Database) (pParam idParam : Option String) :
    SimilarResult :=
  match page_param_of pParam with
  | none => .httpError 400 "Invalid page"
  | some page =>
    match idParam with
    | none => .httpError 400 "Missing program id"
    | some pid =>
      match db.featureHash pid with
      | none => .httpError 404 "Program not found"
      | some h =>
        if page < 1 ∨ ((db.similarCount pid / 50 + 1 : Nat) : Int) < page then
          .httpError 400 "Invalid page"
        else
          .page { programId := pid,
                  programs := db.pageWithFeatureHash h (50 * (page - 1))
                                (50 * (page - 1) + 50),
                  page := page, totalPages := db.similarCount pid / 50 + 1 }

/-- Context computed by `upload_source_route`. In the Python, `imports`
and `import_programs` are built by one loop appending to both; here they
are the two componentwise maps of that loop over the declared imports. -/
structure UploadCtx where
  programId : String
  imports : List String
  importPrograms : List (Option String)
  hasLeoSource : Bool
  message : Option String
  source : Option String
deriving DecidableEq, Repr

/-- Outcome of `upload_source_route`. -/
inductive UploadResult where
  | httpError (status : Nat) (detail : String)
  | page (ctx : UploadCtx)
deriving DecidableEq, Repr

/-- Lines 163-202 of `program_routes.py`: the source-upload form route.
For a program with no committed source it walks `program.imports`; the
one named `credits.aleo` gets `None` appended to `import_programs`
without consulting the store, every other one gets the stored source
(`None` when absent, with no failure). -/
def upload_source_route (db : Database) (idParam : Option String)
    (isPost : Bool) (formSource : Option String)
    (message : Option String) : UploadResult :=
  match idParam with
  | none => .httpError 400 "Missing program id"
  | some pid =>
    match db.programs pid with
    | none => .httpError 404 "Program not found"
    | some programBytes =>
      if (db.leoSources pid).isSome then
        .page { programId := pid, imports := [], importPrograms := [],
                hasLeoSource := true, message := message,
                source := if isPost then formSource else some "" }
      else
        .page { programId := pid,
                imports := (db.loadProgram programBytes).imports.map
                  (fun i => i.name),
                importPrograms := (db.loadProgram programBytes).imports.map
                  (fun i =>
                    if i.strOf ≠ "credits.aleo" then db.leoSources i.strOf
                    else none),
                hasLeoSource := false, message := message,
                source := if isPost then formSource else some "" }

/-- The external compiler boundary
`aleo_explorer_rust.compile_program(source, name, import_data)`:
returns bytecode or raises `RuntimeError` with a message (`Except.error`
here). -/
abbrev CompileFn :=
  String → String → List (String × String) → Except String Bytecode

/-- Lines 229-232 of `program_routes.py`: a compiler error message
longer than 255 characters is cut to its first 255 characters with
`[trimmed]` appended; a message of at most 255 characters is passed
through unmodified. -/
def trimmedMessage (e : String) : String :=
  if 255 < e.length then e.take 255 ++ "[trimmed]" else e

/-- `s.split(".")[0]` on a list of characters: everything before the
first `.` (the whole input when no `.` occurs). -/
def bareNameChars : List Char → List Char
  | [] => []
  | c :: cs => if c = '.' then [] else c :: bareNameChars cs

/-- Line 227 of `program_routes.py`: `program_id.split(".")[0]`, the
bare program name handed to the compiler. -/
def bareName (s : String) : String := ⟨bareNameChars s.toList⟩

/-- The submitted form of `submit_source_route`: `form.get("id")`,
`form.get("source")`, `form.getlist("imports[]")` and
`form.getlist("import_programs[]")`. -/
structure SubmitForm where
  id : Option FormValue
  source : Option FormValue
  imports : List FormValue
  importPrograms : List FormValue
deriving Repr

/-- Lines 221-225 of `program_routes.py`: pair up the two form lists;
any `UploadFile` entry aborts with invalid form data (`none`). The
route only calls this after checking the lists have equal length. -/
def importDataOf :
    List FormValue → List FormValue → Option (List (String × String))
  | [], [] => some []
  | FormValue.str i :: is, FormValue.str p :: ps =>
    (importDataOf is ps).map (fun r => (i, p) :: r)
  | _, _ => none

/-- Outcome of `submit_source_route`: a redirect back to the upload
form carrying a message, or the 303 success redirect to the program
page. -/
inductive SubmitResult where
  | redirectUpload (idText : String) (message : String)
  | redirectProgram (pid : String)
deriving DecidableEq, Repr

/-- Lines 205-237 of `program_routes.py`: source submission. Validates
the form, compiles the declared source with the bare program name and
the form-provided import data, compares the result byte-for-byte with
the on-chain bytecode, and commits the source only on an exact match.
Returns the outcome together with the resulting database state. -/
def submit_source_route (compile : CompileFn) (db : Database)
    (form : SubmitForm) : SubmitResult × Database :=
  match form.id with
  | none => (.redirectUpload "None" "Missing program id", db)
  | some FormValue.file => (.redirectUpload "UploadFile" "Missing program id", db)
  | some (FormValue.str pid) =>
    match db.programs pid with
    | none => (.redirectUpload pid "Program not found", db)
    | some program =>
      match form.source with
      | none => (.redirectUpload pid "Missing source code", db)
      | some FormValue.file => (.redirectUpload pid "Missing source code", db)
      | some (FormValue.str source) =>
        if source = "" then (.redirectUpload pid "Missing source code", db)
        else if form.imports.length ≠ form.importPrograms.length then
          (.redirectUpload pid "Invalid form data", db)
        else
          match importDataOf form.imports form.importPrograms with
          | none => (.redirectUpload pid "Invalid form data", db)
          | some importData =>
            match compile source (bareName pid) importData with
            | .error e =>
              (.redirectUpload pid
                ("Failed to compile source code: " ++ trimmedMessage e), db)
            | .ok compiled =>
              if program ≠ compiled then
                (.redirectUpload pid
                  "Program compiled from source code doesn\x27t match program on chain",
                 db)
              else
                (.redirectProgram pid, db.storeLeoSource pid source)

/-! Concrete sample states used to instantiate the theorems below. -/

/-- A database holding one on-chain program `hello.aleo` with bytecode
`[1, 2, 3]`, no imports and no committed source. -/
def helloDb : Database :=
  { programs := fun p => if p = "hello.aleo" then some [1, 2, 3] else none,
    leoSources := fun _ => none,
    loadProgram := fun _ => ⟨[]⟩,
    featureHash := fun _ => none,
    similarGroups := fun _ => [],
    programCount := fun _ => 0,
    getPrograms := fun _ _ _ => [],
    builtinPrograms := [] }

/-- `helloDb` after a source for `hello.aleo` has been committed. -/
def helloDbCommitted : Database :=
  { helloDb with
    leoSources := fun p => if p = "hello.aleo" then some "program hello" else none }

/-- A well-formed submission form for `hello.aleo` with no imports. -/
def helloForm : SubmitForm :=
  { id := some (.str "hello.aleo"), source := some (.str "program hello"),
    imports := [], importPrograms := [] }

/-- A well-formed submission form for `hello.aleo` with one import pair. -/
def helloFormImports : SubmitForm :=
  { id := some (.str "hello.aleo"), source := some (.str "program hello"),
    imports := [.str "b"], importPrograms := [.str "program b"] }

/-- A compiler stub whose output matches the on-chain bytecode of
`hello.aleo` in `helloDb`. -/
def compileOk : CompileFn := fun _ _ _ => .ok [1, 2, 3]

/-- A compiler stub whose output differs from every bytecode in
`helloDb`. -/
def compileBad : CompileFn := fun _ _ _ => .ok [9]

/-- A compiler stub that always fails with a short message. -/
def compileErr : CompileFn := fun _ _ _ => .error "boom"

/-- A database for the similarity route: `a.aleo` has feature hash `7`
and its similarity group is the singleton `[a.aleo]` (count 1). -/
def similarDb : Database :=
  { helloDb with
    featureHash := fun p => if p = "a.aleo" then some 7 else none,
    similarGroups := fun h => if h = 7 then ["a.aleo"] else [] }

/-- A database where `b.aleo` has feature hash `8` with an empty
similarity group (count 0). -/
def emptyGroupDb : Database :=
  { helloDb with
    featureHash := fun p => if p = "b.aleo" then some 8 else none }

/-- A database where `a.aleo` is on chain and declares the single
non-built-in import `b.aleo`, for which no source record exists. -/
def missingImportDb : Database :=
  { helloDb with
    programs := fun p => if p = "a.aleo" then some [1] else none,
    loadProgram := fun b => if b = [1] then ⟨[⟨"b", "aleo"⟩]⟩ else ⟨[]⟩ }

/-- A database where `a.aleo` is on chain and declares itself as its
only import: the import graph has the cycle `a.aleo → a.aleo`. -/
def selfImportDb : Database :=
  { helloDb with
    programs := fun p => if p = "a.aleo" then some [2] else none,
    loadProgram := fun b => if b = [2] then ⟨[⟨"a", "aleo"⟩]⟩ else ⟨[]⟩ }

/-- A database where `main.aleo` is on chain and declares the single
built-in import `credits.aleo`; the source store is empty. -/
def builtinImportDb : Database :=
  { helloDb with
    programs := fun p => if p = "main.aleo" then some [3] else none,
    loadProgram := fun b => if b = [3] then ⟨[⟨"credits", "aleo"⟩]⟩ else ⟨[]⟩ }

/-- A 300-character compiler error message, longer than the 255-unit
bound. -/
def longMsg : String := String.mk (List.replicate 300 'a')

/-- A compiler stub failing with the over-long message `longMsg`. -/
def compileErrLong : CompileFn := fun _ _ _ => .error longMsg

/-! Helper lemmas shared by the theorems below. -/

/-- `s.split(".")[0]` on `l ++ "." ++ r` recovers `l` when `l` holds no
dot. -/
theorem bareNameChars_append_dot (l r : List Char) (h : '.' ∉ l) :
    bareNameChars (l ++ '.' :: r) = l := by
  induction l with
  | nil => simp [bareNameChars]
  | cons c cs ih =>
    have hc : c ≠ '.' := fun hc => h (hc ▸ List.mem_cons_self c cs)
    show (if c = '.' then [] else c :: bareNameChars (cs ++ '.' :: r)) = c :: cs
    rw [if_neg hc, ih (fun hm => h (List.mem_cons_of_mem c hm))]

/-- The bare name handed to the compiler: for a dot-free `name`,
`(name ++ ".aleo").split(".")[0] = name`. -/
theorem bareName_append_aleo (name : String) (h : '.' ∉ name.data) :
    bareName (name ++ ".aleo") = name := by
  show String.mk (bareNameChars (name ++ ".aleo").toList) = name
  have he : (name ++ ".aleo").toList = name.data ++ '.' :: ['a', 'l', 'e', 'o'] :=
    rfl
  rw [he, bareNameChars_append_dot _ _ h]

/-- When both form lists are plain strings of equal length, the import
data handed to the compiler is their zip, in the given order. -/
theorem importDataOf_strs (is ps : List String) (h : is.length = ps.length) :
    importDataOf (is.map FormValue.str) (ps.map FormValue.str) =
      some (is.zip ps) := by
  induction is generalizing ps with
  | nil =>
    cases ps with
    | nil => rfl
    | cons p ps => simp at h
  | cons i is ih =>
    cases ps with
    | nil => simp at h
    | cons p ps =>
      simp only [List.map_cons, importDataOf, List.zip_cons_cons]
      rw [ih ps (by simpa using h)]
      rfl

/-- Once `submit_source_route` passes form validation, its outcome is
decided by the compiler call on the declared source, the bare program
name and the paired import data. -/
theorem submit_source_route_compile_step
    (compile : CompileFn) (db : Database) (form : SubmitForm)
    (pid source : String) (program : Bytecode)
    (importData : List (String × String))
    (h1 : form.id = some (.str pid))
    (h2 : db.programs pid = some program)
    (h3 : form.source = some (.str source))
    (h4 : source ≠ "")
    (h5 : form.imports.length = form.importPrograms.length)
    (h6 : importDataOf form.imports form.importPrograms = some importData) :
    submit_source_route compile db form =
      match compile source (bareName pid) importData with
      | .error e =>
        (.redirectUpload pid
          ("Failed to compile source code: " ++ trimmedMessage e), db)
      | .ok compiled =>
        if program ≠ compiled then
          (.redirectUpload pid
            "Program compiled from source code doesn\x27t match program on chain",
           db)
        else (.redirectProgram pid, db.storeLeoSource pid source) := by
  obtain ⟨fid, fsrc, fimps, fimpPs⟩ := form
  simp only at h1 h3 h5 h6
  subst h1
  subst h3
  simp only [submit_source_route, h2, h6]
  rw [if_neg h4, if_neg (by simp [h5])]

/-- For a program with no committed source, the upload route renders
the page built from the one-level walk over its declared imports. -/
theorem upload_source_route_uncommitted
    (db : Database) (pid : String) (bytes : Bytecode)
    (isPost : Bool) (fs msg : Option String)
    (h2 : db.programs pid = some bytes)
    (h3 : db.leoSources pid = none) :
    upload_source_route db (some pid) isPost fs msg =
      .page { programId := pid,
              imports := (db.loadProgram bytes).imports.map (fun i => i.name),
              importPrograms := (db.loadProgram bytes).imports.map (fun i =>
                if i.strOf ≠ "credits.aleo" then db.leoSources i.strOf else none),
              hasLeoSource := false, message := msg,
              source := if isPost then fs else some "" } := by
  simp [upload_source_route, h2, h3]

/-- Whenever `programs_route` renders a page, the `no_helloworld` flag
it records (and passes to the database reads) is the parsed query
parameter. -/
theorem programs_route_page_flag
    (db : Database) (p q : Option String) (ctx : ProgramsCtx)
    (h : programs_route db p q = .page ctx) :
    ctx.noHelloworld = no_helloworld_of q := by
  unfold programs_route at h
  cases hpp : page_param_of p with
  | none =>
    rw [hpp] at h
    simp at h
  | some pg =>
    rw [hpp] at h
    have hr : (if pg < 1 ∨
        ((db.programCount (no_helloworld_of q) / 50 + 1 : Nat) : Int) < pg then
        ProgramsResult.httpError 400 "Invalid page"
      else
        ProgramsResult.page
          { programs := db.getPrograms (50 * (pg - 1)) (50 * (pg - 1) + 50)
              (no_helloworld_of q) ++ db.builtinPrograms,
            page := pg,
            totalPages := db.programCount (no_helloworld_of q) / 50 + 1,
            noHelloworld := no_helloworld_of q }) = ProgramsResult.page ctx := h
    by_cases hg : pg < 1 ∨
        ((db.programCount (no_helloworld_of q) / 50 + 1 : Nat) : Int) < pg
    · rw [if_pos hg] at hr
      simp at hr
    · rw [if_neg hg] at hr
      simp only [ProgramsResult.page.injEq] at hr
      rw [← hr]

/-! Claim theorems. -/

/-- C1: for a program id with on-chain bytecode `program`, a validated
submission whose source compiles to exactly `program` is accepted — the
source is committed and the success redirect returned — while one
compiling to any other bytecode is rejected with the bytecode-mismatch
message and no commit; acceptance happens only on byte-for-byte
equality. -/
theorem submit_source_accepted_iff_bytecode_matches
    (compile : CompileFn) (db : Database) (form : SubmitForm)
    (pid source : String) (program compiled : Bytecode)
    (importData : List (String × String))
    (h1 : form.id = some (.str pid))
    (h2 : db.programs pid = some program)
    (h3 : form.source = some (.str source))
    (h4 : source ≠ "")
    (h5 : form.imports.length = form.importPrograms.length)
    (h6 : importDataOf form.imports form.importPrograms = some importData)
    (hc : compile source (bareName pid) importData = .ok compiled) :
    (compiled = program →
      submit_source_route compile db form =
        (.redirectProgram pid, db.storeLeoSource pid source))
    ∧ (compiled ≠ program →
      submit_source_route compile db form =
        (.redirectUpload pid
          "Program compiled from source code doesn\x27t match program on chain",
         db)) := by
  have key := submit_source_route_compile_step compile db form pid source
    program importData h1 h2 h3 h4 h5 h6
  rw [hc] at key
  constructor
  · intro he
    subst he
    rw [key]
    simp
  · intro hne
    rw [key]
    simp [Ne.symm hne]

/-- Witness for C1 at a concrete accepted submission. -/
theorem submit_source_accepted_iff_bytecode_matches_witness :
    submit_source_route compileOk helloDb helloForm =
      (.redirectProgram "hello.aleo",
        helloDb.storeLeoSource "hello.aleo" "program hello") :=
  (submit_source_accepted_iff_bytecode_matches compileOk helloDb helloForm
    "hello.aleo" "program hello" [1, 2, 3] [1, 2, 3] []
    rfl rfl rfl (by decide) rfl rfl rfl).1 rfl

/-- C2: a validated submission whose compiled bytecode differs from the
on-chain bytecode is rejected and the returned database state is the
input state unchanged — no store write happens on a mismatch. -/
theorem submit_bytecode_mismatch_store_unchanged
    (compile : CompileFn) (db : Database) (form : SubmitForm)
    (pid source : String) (program compiled : Bytecode)
    (importData : List (String × String))
    (h1 : form.id = some (.str pid))
    (h2 : db.programs pid = some program)
    (h3 : form.source = some (.str source))
    (h4 : source ≠ "")
    (h5 : form.imports.length = form.importPrograms.length)
    (h6 : importDataOf form.imports form.importPrograms = some importData)
    (hc : compile source (bareName pid) importData = .ok compiled)
    (hne : compiled ≠ program) :
    submit_source_route compile db form =
      (.redirectUpload pid
        "Program compiled from source code doesn\x27t match program on chain",
       db) := by
  have key := submit_source_route_compile_step compile db form pid source
    program importData h1 h2 h3 h4 h5 h6
  rw [hc] at key
  rw [key]
  simp [Ne.symm hne]

/-- Witness for C2 at a concrete mismatching submission. -/
theorem submit_bytecode_mismatch_store_unchanged_witness :
    submit_source_route compileBad helloDb helloForm =
      (.redirectUpload "hello.aleo"
        "Program compiled from source code doesn\x27t match program on chain",
       helloDb) :=
  submit_bytecode_mismatch_store_unchanged compileBad helloDb helloForm
    "hello.aleo" "program hello" [1, 2, 3] [9] []
    rfl rfl rfl (by decide) rfl rfl rfl (by decide)

/-- C3: with the commit store modelled from the spec as insert-if-absent,
resubmitting a source that compiles to the already-recorded bytecode
while a source record exists is a no-op success (the redirect succeeds
and the database is unchanged, so no second record and no overwrite),
and the store operation never alters or removes an existing source
record for any id. -/
theorem committed_source_resubmission_noop
    (compile : CompileFn) (db : Database) (form : SubmitForm)
    (pid source s0 : String) (program : Bytecode)
    (importData : List (String × String))
    (h0 : db.leoSources pid = some s0)
    (h1 : form.id = some (.str pid))
    (h2 : db.programs pid = some program)
    (h3 : form.source = some (.str source))
    (h4 : source ≠ "")
    (h5 : form.imports.length = form.importPrograms.length)
    (h6 : importDataOf form.imports form.importPrograms = some importData)
    (hc : compile source (bareName pid) importData = .ok program) :
    submit_source_route compile db form = (.redirectProgram pid, db)
    ∧ (∀ (d : Database) (p s q t : String), d.leoSources q = some t →
        (d.storeLeoSource p s).leoSources q = some t) := by
  constructor
  · have key := submit_source_route_compile_step compile db form pid source
      program importData h1 h2 h3 h4 h5 h6
    rw [hc] at key
    have hst : db.storeLeoSource pid source = db := by
      unfold Database.storeLeoSource
      rw [h0]
    rw [key, hst]
    simp
  · intro d p s q t ht
    unfold Database.storeLeoSource
    cases hd : d.leoSources p with
    | some u => exact ht
    | none =>
      show (if q = p then some s else d.leoSources q) = some t
      have hq : q ≠ p := by
        intro he
        rw [he, hd] at ht
        cases ht
      rw [if_neg hq]
      exact ht

/-- Witness for C3: resubmitting the committed source of `hello.aleo`
succeeds and leaves the database unchanged. -/
theorem committed_source_resubmission_noop_witness :
    submit_source_route compileOk helloDbCommitted helloForm =
      (.redirectProgram "hello.aleo", helloDbCommitted) :=
  (committed_source_resubmission_noop compileOk helloDbCommitted helloForm
    "hello.aleo" "program hello" "program hello" [1, 2, 3] []
    rfl rfl rfl rfl (by decide) rfl rfl rfl).1

/-- C4: a compiler error is surfaced with its message bounded — a
message longer than 255 characters is cut to exactly its first 255
characters with the `[trimmed]` marker appended, and a message of at
most 255 characters passes through unmodified. -/
theorem compile_error_message_bounded
    (compile : CompileFn) (db : Database) (form : SubmitForm)
    (pid source e : String) (program : Bytecode)
    (importData : List (String × String))
    (h1 : form.id = some (.str pid))
    (h2 : db.programs pid = some program)
    (h3 : form.source = some (.str source))
    (h4 : source ≠ "")
    (h5 : form.imports.length = form.importPrograms.length)
    (h6 : importDataOf form.imports form.importPrograms = some importData)
    (hc : compile source (bareName pid) importData = .error e) :
    submit_source_route compile db form =
      (.redirectUpload pid
        ("Failed to compile source code: " ++ trimmedMessage e), db)
    ∧ (255 < e.length →
        trimmedMessage e = e.take 255 ++ "[trimmed]"
        ∧ (e.take 255).length = 255)
    ∧ (e.length ≤ 255 → trimmedMessage e = e) := by
  refine ⟨?_, fun hlen => ⟨?_, ?_⟩, fun hlen => ?_⟩
  · have key := submit_source_route_compile_step compile db form pid source
      program importData h1 h2 h3 h4 h5 h6
    rw [hc] at key
    exact key
  · show (if 255 < e.length then e.take 255 ++ "[trimmed]" else e) = _
    rw [if_pos hlen]
  · rw [String.take_eq]
    show (e.data.take 255).length = 255
    rw [List.length_take]
    exact Nat.min_eq_left (Nat.le_of_lt hlen)
  · show (if 255 < e.length then e.take 255 ++ "[trimmed]" else e) = e
    rw [if_neg (by omega)]

/-- Witness for C4: a short message passes through; a 300-character
message is trimmed with the marker. -/
theorem compile_error_message_bounded_witness :
    submit_source_route compileErr helloDb helloForm =
      (.redirectUpload "hello.aleo"
        "Failed to compile source code: boom", helloDb)
    ∧ trimmedMessage longMsg = longMsg.take 255 ++ "[trimmed]" :=
  ⟨(compile_error_message_bounded compileErr helloDb helloForm "hello.aleo"
      "program hello" "boom" [1, 2, 3] [] rfl rfl rfl (by decide)
      rfl rfl rfl).1,
   ((compile_error_message_bounded compileErrLong helloDb helloForm
      "hello.aleo" "program hello" longMsg [1, 2, 3] [] rfl rfl rfl
      (by decide) rfl rfl rfl).2.1
      (by set_option maxRecDepth 2000 in decide)).1⟩

/-- C5 counterexample: in `similarDb` the similarity count of `a.aleo`
is 1, so the offset of page 2 (50) is at or beyond the count, yet the
similar-programs query answers with HTTP 400 `Invalid page` instead of
an empty sequence. -/
theorem similar_page_beyond_count_http_error :
    ((similarDb.similarCount "a.aleo" : Nat) : Int) ≤ 50 * ((2 : Int) - 1)
    ∧ similar_programs_route similarDb (some "2") (some "a.aleo") =
        .httpError 400 "Invalid page" :=
  ⟨by decide, rfl⟩

/-- C5 amended: an offset at or beyond the similarity count yields an
empty sequence only while the requested page stays within
`count / 50 + 1`; beyond that bound the route rejects the request with
HTTP 400 `Invalid page`. This theorem proves the in-bound half: on the
last allowed page with offset at or beyond the count, the route
succeeds with an empty program list. -/
theorem similar_last_page_beyond_count_returns_empty
    (db : Database) (pParam : Option String) (pid : String) (h : Nat)
    (page : Int)
    (hp : page_param_of pParam = some page)
    (hh : db.featureHash pid = some h)
    (hlo : 1 ≤ page)
    (hhi : page ≤ ((db.similarCount pid / 50 + 1 : Nat) : Int))
    (hoff : ((db.similarCount pid : Nat) : Int) ≤ 50 * (page - 1)) :
    similar_programs_route db pParam (some pid) =
      .page { programId := pid, programs := [],
              page := page, totalPages := db.similarCount pid / 50 + 1 } := by
  have hcnt : db.similarCount pid = (db.similarGroups h).length := by
    unfold Database.similarCount
    rw [hh]
  have hempty :
      db.pageWithFeatureHash h (50 * (page - 1)) (50 * (page - 1) + 50) = [] := by
    unfold Database.pageWithFeatureHash
    have hle : ((db.similarGroups h).length : Int) ≤ 50 * (page - 1) := by
      rwa [hcnt] at hoff
    have hlen : (db.similarGroups h).length ≤ (50 * (page - 1)).toNat := by
      calc (db.similarGroups h).length
          = ((db.similarGroups h).length : Int).toNat := by simp
        _ ≤ (50 * (page - 1)).toNat := Int.toNat_le_toNat hle
    rw [List.drop_eq_nil_of_le hlen]
    simp
  simp only [similar_programs_route, hp, hh]
  rw [if_neg (by simp only [not_or, not_lt]; exact ⟨hlo, hhi⟩), hempty]

/-- Witness for the amended C5: with an empty similarity group, page 1
(offset 0, at the count) renders an empty page. -/
theorem similar_last_page_beyond_count_returns_empty_witness :
    similar_programs_route emptyGroupDb none (some "b.aleo") =
      .page { programId := "b.aleo", programs := [], page := 1,
              totalPages := 1 } :=
  similar_last_page_beyond_count_returns_empty emptyGroupDb none "b.aleo" 8 1
    rfl rfl (by decide) (by decide) (by decide)

/-- C6 counterexample: in `missingImportDb` the program `a.aleo`
declares the non-built-in import `b.aleo` whose source record is
absent, yet the upload route succeeds with `none` in that import's slot
instead of failing with any missing-import-source outcome. -/
theorem missing_import_source_resolution_succeeds :
    missingImportDb.leoSources "b.aleo" = none
    ∧ AleoProgramId.strOf ⟨"b", "aleo"⟩ ≠ "credits.aleo"
    ∧ upload_source_route missingImportDb (some "a.aleo") false none none =
        .page { programId := "a.aleo", imports := ["b"],
                importPrograms := [none], hasLeoSource := false,
                message := none, source := some "" } :=
  ⟨rfl, by decide, rfl⟩

/-- C6 amended: an absent source record for a non-built-in import does
not make resolution fail: the upload route always renders its page, the
absent records appearing as `none` entries of `import_programs`, and no
missing-import failure exists before compilation. -/
theorem upload_missing_import_source_tolerated
    (db : Database) (pid : String) (bytes : Bytecode)
    (isPost : Bool) (fs msg : Option String)
    (h2 : db.programs pid = some bytes)
    (h3 : db.leoSources pid = none) :
    ∃ ctx, upload_source_route db (some pid) isPost fs msg = .page ctx
      ∧ ctx.importPrograms = (db.loadProgram bytes).imports.map (fun i =>
          if i.strOf ≠ "credits.aleo" then db.leoSources i.strOf else none) :=
  ⟨_, upload_source_route_uncommitted db pid bytes isPost fs msg h2 h3, rfl⟩

/-- Witness for the amended C6 at the concrete `missingImportDb`. -/
theorem upload_missing_import_source_tolerated_witness :
    ∃ ctx, upload_source_route missingImportDb (some "a.aleo") false none none
        = .page ctx
      ∧ ctx.importPrograms =
          (missingImportDb.loadProgram [1]).imports.map (fun i =>
            if i.strOf ≠ "credits.aleo" then missingImportDb.leoSources i.strOf
            else none) :=
  upload_missing_import_source_tolerated missingImportDb "a.aleo" [1]
    false none none rfl rfl

/-- C7: a program whose only import is the built-in `credits.aleo`
resolves successfully even when the source-record store is entirely
empty; the built-in slot is filled with the fixed stub `none` and no
source record is ever required for it. -/
theorem builtin_only_import_resolves_with_empty_store
    (db : Database) (pid : String) (bytes : Bytecode)
    (h2 : db.programs pid = some bytes)
    (hempty : ∀ q, db.leoSources q = none)
    (himp : (db.loadProgram bytes).imports = [⟨"credits", "aleo"⟩]) :
    upload_source_route db (some pid) false none none =
      .page { programId := pid, imports := ["credits"],
              importPrograms := [none], hasLeoSource := false,
              message := none, source := some "" } := by
  rw [upload_source_route_uncommitted db pid bytes false none none h2
    (hempty pid), himp]
  rfl

/-- Witness for C7 at the concrete `builtinImportDb`. -/
theorem builtin_only_import_resolves_with_empty_store_witness :
    upload_source_route builtinImportDb (some "main.aleo") false none none =
      .page { programId := "main.aleo", imports := ["credits"],
              importPrograms := [none], hasLeoSource := false,
              message := none, source := some "" } :=
  builtin_only_import_resolves_with_empty_store builtinImportDb "main.aleo"
    [3] rfl (fun _ => rfl) rfl

/-- C8 counterexample: in `selfImportDb` the program `a.aleo` imports
itself — a repeat of a program id already on the resolution path — yet
the import walk succeeds with a rendered page instead of failing with
any cyclic-import outcome. -/
theorem self_import_cycle_no_cyclic_failure :
    (selfImportDb.loadProgram [2]).imports = [⟨"a", "aleo"⟩]
    ∧ AleoProgramId.strOf ⟨"a", "aleo"⟩ = "a.aleo"
    ∧ upload_source_route selfImportDb (some "a.aleo") false none none =
        .page { programId := "a.aleo", imports := ["a"],
                importPrograms := [none], hasLeoSource := false,
                message := none, source := some "" } :=
  ⟨rfl, rfl, rfl⟩

/-- C8 amended: the import walk terminates because it is a total,
non-recursive map over the program's direct imports only; a repeated
program id on the path is not detected, and resolution succeeds for it
like any other import instead of failing. -/
theorem import_walk_succeeds_despite_cycle
    (db : Database) (pid : String) (bytes : Bytecode) (i : AleoProgramId)
    (h2 : db.programs pid = some bytes)
    (h3 : db.leoSources pid = none)
    (hmem : i ∈ (db.loadProgram bytes).imports)
    (hself : i.strOf = pid) :
    ∃ ctx, upload_source_route db (some pid) false none none = .page ctx
      ∧ ctx.imports = (db.loadProgram bytes).imports.map (fun j => j.name) :=
  ⟨_, upload_source_route_uncommitted db pid bytes false none none h2 h3, rfl⟩

/-- Witness for the amended C8 at the concrete `selfImportDb`. -/
theorem import_walk_succeeds_despite_cycle_witness :
    ∃ ctx, upload_source_route selfImportDb (some "a.aleo") false none none
        = .page ctx
      ∧ ctx.imports =
          (selfImportDb.loadProgram [2]).imports.map (fun j => j.name) :=
  import_walk_succeeds_despite_cycle selfImportDb "a.aleo" [2] ⟨"a", "aleo"⟩
    rfl rfl (by decide) rfl

/-- C10: a `no_helloworld` query parameter that is absent or not
parseable as an integer is silently treated as the filter being off —
the route behaves exactly as with no parameter, raising no error — and
a parameter parsing to the integer `n` enables the filter exactly when
`n` is non-zero, as recorded in the rendered page. -/
theorem no_helloworld_param_lenient
    (db : Database) (p : Option String) (s : String) (n : Int) :
    no_helloworld_of none = false
    ∧ (pythonInt s = none →
        no_helloworld_of (some s) = false
        ∧ programs_route db p (some s) = programs_route db p none)
    ∧ (pythonInt s = some n →
        no_helloworld_of (some s) = (n != 0)
        ∧ ∀ ctx, programs_route db p (some s) = .page ctx →
            ctx.noHelloworld = (n != 0)) := by
  refine ⟨rfl, fun hs => ⟨?_, ?_⟩, fun hs => ⟨?_, ?_⟩⟩
  · simp [no_helloworld_of, hs]
  · have hflag : no_helloworld_of (some s) = no_helloworld_of none := by
      simp [no_helloworld_of, hs]
    unfold programs_route
    simp only [hflag]
  · simp [no_helloworld_of, hs]
  · intro ctx hctx
    have hflag : no_helloworld_of (some s) = (n != 0) := by
      simp [no_helloworld_of, hs]
    have := programs_route_page_flag db p (some s) ctx hctx
    rw [this, hflag]

/-- Witness for C10: the unparseable value `zz` leaves the filter off
and the route unchanged; the value `7` turns it on. -/
theorem no_helloworld_param_lenient_witness :
    no_helloworld_of (some "zz") = false
    ∧ programs_route helloDb none (some "zz") = programs_route helloDb none none
    ∧ no_helloworld_of (some "7") = ((7 : Int) != 0) := by
  obtain ⟨-, h2, -⟩ := no_helloworld_param_lenient helloDb none "zz" 0
  obtain ⟨-, -, h3⟩ := no_helloworld_param_lenient helloDb none "7" 7
  obtain ⟨ha, hb⟩ := h2 rfl
  obtain ⟨hc, -⟩ := h3 rfl
  exact ⟨ha, hb, hc⟩

/-- C9: a validated submission invokes the compiler with exactly the
declared source text, the bare program name — the id with its `.aleo`
suffix removed — and the form's import pairs zipped in their given
(declaration) order; the submission outcome is entirely determined by
that one invocation. -/
theorem compiler_invoked_with_bare_name_and_ordered_imports
    (compile : CompileFn) (db : Database) (form : SubmitForm)
    (name source : String) (program : Bytecode) (is ps : List String)
    (hname : '.' ∉ name.data)
    (h1 : form.id = some (.str (name ++ ".aleo")))
    (h2 : db.programs (name ++ ".aleo") = some program)
    (h3 : form.source = some (.str source))
    (h4 : source ≠ "")
    (hi : form.imports = is.map FormValue.str)
    (hp : form.importPrograms = ps.map FormValue.str)
    (hlen : is.length = ps.length) :
    submit_source_route compile db form =
      match compile source name (is.zip ps) with
      | .error e =>
        (.redirectUpload (name ++ ".aleo")
          ("Failed to compile source code: " ++ trimmedMessage e), db)
      | .ok compiled =>
        if program ≠ compiled then
          (.redirectUpload (name ++ ".aleo")
            "Program compiled from source code doesn\x27t match program on chain",
           db)
        else
          (.redirectProgram (name ++ ".aleo"),
           db.storeLeoSource (name ++ ".aleo") source) := by
  have h5 : form.imports.length = form.importPrograms.length := by
    rw [hi, hp]
    simp [hlen]
  have h6 : importDataOf form.imports form.importPrograms = some (is.zip ps) := by
    rw [hi, hp]
    exact importDataOf_strs is ps hlen
  have key := submit_source_route_compile_step compile db form
    (name ++ ".aleo") source program (is.zip ps) h1 h2 h3 h4 h5 h6
  rw [bareName_append_aleo name hname] at key
  exact key

/-- Witness for C9: the concrete one-import submission compiles under
the bare name `hello` and is accepted. -/
theorem compiler_invoked_with_bare_name_and_ordered_imports_witness :
    submit_source_route compileOk helloDb helloFormImports =
      (.redirectProgram "hello.aleo",
        helloDb.storeLeoSource "hello.aleo" "program hello") :=
  (compiler_invoked_with_bare_name_and_ordered_imports compileOk helloDb
    helloFormImports "hello" "program hello" [1, 2, 3] ["b"] ["program b"]
    (by decide) rfl rfl rfl (by decide) rfl rfl rfl).trans (by rfl)

end AleoExplorer
